import Mathlib

/-!
Verification of the subprocess-control module (`src/process.rs`) of
cargo-mutants: a shallow embedding of `Process::poll`, `Process::terminate`,
`terminate_child_impl` (Unix), `Process::start`, `get_command_output` and
`cheap_shell_quote`, together with theorems checking the specification.

OS interactions (elapsed clock, the cooperative interrupt flag,
`Child::try_wait`, `killpg`, `Child::wait`, spawning) are modelled as an
explicit environment record describing what the OS reports during one call;
the Rust control flow is translated line by line over that environment.
-/

deriving instance DecidableEq for Except

namespace ProcessModel

/-- `ProcessStatus` from `src/process.rs`: the result of running a single
child process.  `Failure` carries a `u32` (a `Nat` below `2^32`), `Signalled`
a `u8` (a `Nat` below `2^8`), as in the Rust enum. -/
inductive ProcessStatus
  | Success
  | Failure (code : Nat)
  | Timeout
  | Signalled (signal : Nat)
  | Other
  deriving DecidableEq, Repr

/-- `ProcessStatus::is_success`. -/
def ProcessStatus.is_success : ProcessStatus → Bool
  | .Success => true
  | _ => false

/-- `ProcessStatus::is_timeout`. -/
def ProcessStatus.is_timeout : ProcessStatus → Bool
  | .Timeout => true
  | _ => false

/-- `ProcessStatus::is_failure`. -/
def ProcessStatus.is_failure : ProcessStatus → Bool
  | .Failure _ => true
  | _ => false

/-- The Rust cast `code as u32` where `code : i32`: reinterpret the signed
32-bit value as unsigned, i.e. take the value modulo `2^32`. -/
def i32AsU32 (code : Int) : Nat := (code % (2 ^ 32)).toNat

/-- The Rust cast `signal as u8` where `signal : i32`: truncate to the low
8 bits, i.e. take the value modulo `2^8`. -/
def i32AsU8 (signal : Int) : Nat := (signal % (2 ^ 8)).toNat

/-- Model of `std::process::ExitStatus` on Unix: `code()` is `some c` when
the child exited normally with code `c`, and `signal()` is `some n` when it
was terminated by signal `n` (both `i32` in Rust, hence `Int` here). -/
structure ExitStatus where
  code : Option Int
  signal : Option Int
  deriving DecidableEq, Repr

/-- POSIX error numbers returned by `killpg`, as matched in
`terminate_child_impl`: `ESRCH` and `EPERM` are distinguished, every other
errno is carried numerically. -/
inductive Errno
  | ESRCH
  | EPERM
  | other (n : Nat)
  deriving DecidableEq, Repr

/-- Outcome of the `killpg(pid, SIGTERM)` call inside
`terminate_child_impl`. -/
inductive KillpgResult
  | ok
  | err (e : Errno)
  deriving DecidableEq, Repr

/-- The errors a `poll` call can surface: the error payload carried by the
cooperative-cancellation query (`check_interrupted`), a termination failure
from `terminate_child_impl` (the `bail!` with the errno), or an I/O error
from `Child::try_wait`.  Interrupt payloads and I/O errors are opaque to
this module, so they are modelled as abstract numeric identities. -/
inductive PollError
  | interrupt (payload : Nat)
  | termFailed (e : Errno)
  | wait (e : Nat)
  deriving DecidableEq, Repr

/-- The fields of `Process` that `poll` and `terminate` read, other than the
live child handle: the optional timeout (`None` = no enforced timeout).
Durations and instants are modelled in integral time units. -/
structure ProcessCfg where
  timeout : Option Nat
  deriving DecidableEq, Repr

/-- What the OS reports during one `poll` call: the elapsed time since
`start`, the result of `check_interrupted()` (`some p` means it returned the
error payload `p`), the result of `Child::try_wait`, and — should the
Terminator run — the outcome of `killpg` and of the blocking `Child::wait`
(whose error, if any, is only logged). -/
structure PollEnv where
  elapsed : Nat
  interrupted : Option Nat
  tryWait : Except Nat (Option ExitStatus)
  killpg : KillpgResult
  waitAfterTerm : Except Nat ExitStatus
  deriving DecidableEq, Repr

/-- `self.timeout.map_or(false, |t| self.start.elapsed() > t)` — the timeout
condition of `poll`, with the strict comparison of the source. -/
def timeoutExceeded (timeout : Option Nat) (elapsed : Nat) : Bool :=
  match timeout with
  | none => false
  | some t => elapsed > t

/-- `terminate_child_impl` (Unix): send `SIGTERM` to the process group;
`ESRCH` is success (probably already gone); `EPERM` is success only when
`cfg!(target_os = "macos")`; any other errno is `bail!`-ed as an error
carrying that errno. -/
def terminate_child_impl (macos : Bool) (k : KillpgResult) : Except Errno Unit :=
  match k with
  | .ok => .ok ()
  | .err .ESRCH => .ok ()
  | .err .EPERM => if macos then .ok () else .error .EPERM
  | .err e => .error e

/-- Result of `Process::terminate`, with a trace flag recording whether the
blocking `Child::wait` step was reached. -/
structure TerminateResult where
  result : Except Errno Unit
  waited : Bool
  deriving DecidableEq, Repr

/-- `Process::terminate`: run `terminate_child_impl` and propagate its error
with `?` (returning early, before the wait); otherwise perform the blocking
`Child::wait`, whose own outcome — success or error — is only logged and
never changes the returned value. -/
def terminate (macos : Bool) (env : PollEnv) : TerminateResult :=
  match terminate_child_impl macos env.killpg with
  | .error e => { result := .error e, waited := false }
  | .ok _ =>
    match env.waitAfterTerm with
    | .error _ => { result := .ok (), waited := true }
    | .ok _ => { result := .ok (), waited := true }

/-- Result of one `Process::poll` call, with a trace flag recording whether
the Terminator (`self.terminate()`) was invoked. -/
structure PollResult where
  outcome : Except PollError (Option ProcessStatus)
  terminated : Bool
  deriving DecidableEq, Repr

/-- `Process::poll`, translated branch by branch: first the timeout check
(terminate, then `Ok(Some(Timeout))`), then `check_interrupted` (terminate,
then propagate the interrupt error), then the non-blocking `try_wait`:
a numeric code `0` gives `Success`, nonzero gives `Failure(code as u32)`,
otherwise a signal gives `Signalled(signal as u8)`, otherwise `Other`;
`None` from `try_wait` means not yet finished.  The `?` on
`self.terminate()` propagates a termination failure in the first two
branches. -/
def poll (macos : Bool) (cfg : ProcessCfg) (env : PollEnv) : PollResult :=
  if timeoutExceeded cfg.timeout env.elapsed then
    match (terminate macos env).result with
    | .error e => { outcome := .error (.termFailed e), terminated := true }
    | .ok _ => { outcome := .ok (some .Timeout), terminated := true }
  else
    match env.interrupted with
    | some payload =>
      match (terminate macos env).result with
      | .error e => { outcome := .error (.termFailed e), terminated := true }
      | .ok _ => { outcome := .error (.interrupt payload), terminated := true }
    | none =>
      match env.tryWait with
      | .error e => { outcome := .error (.wait e), terminated := false }
      | .ok none => { outcome := .ok none, terminated := false }
      | .ok (some status) =>
        match status.code with
        | some code =>
          if code = 0 then
            { outcome := .ok (some .Success), terminated := false }
          else
            { outcome := .ok (some (.Failure (i32AsU32 code))), terminated := false }
        | none =>
          match status.signal with
          | some signal =>
            { outcome := .ok (some (.Signalled (i32AsU8 signal))), terminated := false }
          | none => { outcome := .ok (some .Other), terminated := false }

/-- Rust `Vec::join(" ")` / `slice::join(" ")`: concatenate the elements
with a single space between consecutive elements. -/
def joinSpace : List String → String
  | [] => ""
  | [s] => s
  | s :: rest => s ++ " " ++ joinSpace rest

/-- The character class matched in `cheap_shell_quote`: space, tab, newline,
carriage return, backslash, single quote (code 39), double quote (code 34). -/
def isShellSpecial (c : Char) : Bool :=
  c = ' ' || c = '\t' || c = '\n' || c = '\r' || c = '\\' ||
    c = Char.ofNat 39 || c = Char.ofNat 34

/-- The per-character step of `cheap_shell_quote`: a special character is
emitted as a backslash followed by the character itself, any other character
is emitted unchanged. -/
def quoteChar (c : Char) : List Char :=
  if isShellSpecial c then ['\\', c] else [c]

/-- One element of the argv as quoted by `cheap_shell_quote`
(`s.chars().flat_map(...).collect::<String>()`). -/
def quoteOne (s : String) : String :=
  String.mk (s.data.flatMap quoteChar)

/-- `cheap_shell_quote`: quote each element and join with single spaces. -/
def cheap_shell_quote (argv : List String) : String :=
  joinSpace (argv.map quoteOne)

/-- Error produced by `Process::start`: the `with_context` wrapping of a
spawn failure carries `format!("failed to spawn {}", argv.join(" "))`. -/
inductive StartError
  | spawnFailed (message : String)
  deriving DecidableEq, Repr

/-- Environment of one `Process::start` call: the outcome the OS gives to
the `i`-th spawn attempt (the code performs exactly one). -/
structure StartEnv where
  spawn : Nat → Except Nat Unit

/-- Result of `Process::start`, with a trace of how many spawn attempts were
made. -/
structure StartResult where
  result : Except StartError ProcessCfg
  spawnCalls : Nat

/-- `Process::start`: one `Command::spawn` attempt; on failure, return the
error wrapped with the attempted command line (`argv.join(" ")`) and produce
no `Process`; on success, the `Process` with the requested timeout. -/
def start (argv : List String) (timeout : Option Nat) (env : StartEnv) : StartResult :=
  match env.spawn 0 with
  | .error _ => { result := .error (.spawnFailed ("failed to spawn " ++ joinSpace argv)), spawnCalls := 1 }
  | .ok _ => { result := .ok { timeout := timeout }, spawnCalls := 1 }

/-- UTF-8 decoding of a byte sequence, as validated by Rust
`String::from_utf8`: standard UTF-8 with continuation bytes in
`0x80..=0xBF`, no overlong encodings (lead bytes `0xC0`/`0xC1` rejected,
restricted ranges after `0xE0` and `0xF0`), no surrogates (restricted range
after `0xED`), and nothing above `U+10FFFF` (lead bytes above `0xF4`
rejected, restricted range after `0xF4`).  Returns the decoded characters,
or `none` when the bytes are not valid UTF-8. -/
def utf8Decode : List Nat → Option (List Char)
  | [] => some []
  | b :: rest =>
    if b < 128 then
      (utf8Decode rest).map (fun cs => Char.ofNat b :: cs)
    else if 194 ≤ b ∧ b ≤ 223 then
      match rest with
      | b1 :: rest1 =>
        if 128 ≤ b1 ∧ b1 ≤ 191 then
          (utf8Decode rest1).map (fun cs =>
            Char.ofNat ((b - 192) * 64 + (b1 - 128)) :: cs)
        else none
      | [] => none
    else if 224 ≤ b ∧ b ≤ 239 then
      match rest with
      | b1 :: b2 :: rest2 =>
        if ((if b = 224 then 160 else 128) ≤ b1 ∧ b1 ≤ (if b = 237 then 159 else 191)) ∧
            (128 ≤ b2 ∧ b2 ≤ 191) then
          (utf8Decode rest2).map (fun cs =>
            Char.ofNat ((b - 224) * 4096 + (b1 - 128) * 64 + (b2 - 128)) :: cs)
        else none
      | _ => none
    else if 240 ≤ b ∧ b ≤ 244 then
      match rest with
      | b1 :: b2 :: b3 :: rest3 =>
        if ((if b = 240 then 144 else 128) ≤ b1 ∧ b1 ≤ (if b = 244 then 143 else 191)) ∧
            (128 ≤ b2 ∧ b2 ≤ 191) ∧ (128 ≤ b3 ∧ b3 ≤ 191) then
          (utf8Decode rest3).map (fun cs =>
            Char.ofNat ((b - 240) * 262144 + (b1 - 128) * 4096 + (b2 - 128) * 64 + (b3 - 128)) :: cs)
        else none
      | _ => none
    else none

/-- What the OS reports for the `Command::output()` call inside
`get_command_output`: either a spawn failure, or the exit status of the child
(`success` is `ExitStatus::success()`, `statusRepr` its debug rendering used
in the error message) together with the captured standard-output bytes. -/
structure CmdOutcome where
  success : Bool
  statusRepr : String
  stdout : List Nat
  deriving DecidableEq, Repr

/-- Errors of `get_command_output`: a spawn failure (context names the
argv), a non-zero exit (`bail!` carries the exit status rendering and the
argv), or non-UTF-8 captured output. -/
inductive CmdError
  | spawnFailed (argv : List String)
  | childFailed (statusRepr : String) (argv : List String)
  | notUtf8
  deriving DecidableEq, Repr

/-- `get_command_output`: spawn and capture; fail with context on spawn
error; `bail!` when the exit status is unsuccessful; decode stdout as UTF-8
(`String::from_utf8`), failing with a decode error when invalid; otherwise
return the decoded text. -/
def get_command_output (argv : List String) (spawn : Except Nat CmdOutcome) :
    Except CmdError String :=
  match spawn with
  | .error _ => .error (.spawnFailed argv)
  | .ok output =>
    if output.success then
      match utf8Decode output.stdout with
      | none => .error .notUtf8
      | some cs => .ok (String.mk cs)
    else .error (.childFailed output.statusRepr argv)

/-- Helper: the timeout condition is true when a timeout `t` is configured
and the elapsed time strictly exceeds it. -/
theorem timeoutExceeded_true {timeout : Option Nat} {el t : Nat}
    (ht : timeout = some t) (h : t < el) : timeoutExceeded timeout el = true := by
  subst ht
  simpa [timeoutExceeded] using h

/-- Helper: with no timeout configured, the timeout condition is false. -/
theorem timeoutExceeded_none {timeout : Option Nat} {el : Nat}
    (ht : timeout = none) : timeoutExceeded timeout el = false := by
  subst ht
  rfl

end ProcessModel

namespace ProcessModel

/-- C2: for every exit code `c` in `[0, 255]`, when the child exits with
numeric code `c` (and neither the timeout nor the interrupt check fires),
`poll` returns `Some(Success)` iff `c = 0`, and otherwise `Some(Failure c)`. -/
theorem C2_exit_code_success_iff_zero (macos : Bool) (cfg : ProcessCfg) (env : PollEnv)
    (c : Nat) (st : ExitStatus) (hc : c ≤ 255)
    (hto : timeoutExceeded cfg.timeout env.elapsed = false)
    (hint : env.interrupted = none)
    (hw : env.tryWait = .ok (some st))
    (hcode : st.code = some (c : Int)) :
    (poll macos cfg env).outcome =
      .ok (some (if c = 0 then ProcessStatus.Success else ProcessStatus.Failure c)) ∧
    ((poll macos cfg env).outcome = .ok (some ProcessStatus.Success) ↔ c = 0) := by
  have h32 : i32AsU32 (c : Int) = c := by
    simp only [i32AsU32]
    omega
  have hmain : (poll macos cfg env).outcome =
      .ok (some (if c = 0 then ProcessStatus.Success else ProcessStatus.Failure c)) := by
    by_cases h0 : c = 0
    · subst h0
      simp [poll, hto, hint, hw, hcode]
    · have hz : (c : Int) ≠ 0 := by exact_mod_cast h0
      simp [poll, hto, hint, hw, hcode, hz, h0, h32]
  refine ⟨hmain, ?_⟩
  rw [hmain]
  by_cases h0 : c = 0 <;> simp [h0]

/-- C2 witness: exit code 7 yields `Failure 7`, not `Success`. -/
theorem C2_witness :
    (poll false { timeout := none }
      { elapsed := 3, interrupted := none, tryWait := .ok (some { code := some 7, signal := none }),
        killpg := .ok, waitAfterTerm := .error 0 }).outcome =
      .ok (some (ProcessStatus.Failure 7)) := by
  have h := C2_exit_code_success_iff_zero false { timeout := none }
    { elapsed := 3, interrupted := none, tryWait := .ok (some { code := some 7, signal := none }),
      killpg := .ok, waitAfterTerm := .error 0 }
    7 { code := some 7, signal := none } (by decide) rfl rfl rfl rfl
  simpa using h.1

/-- C4: on POSIX, `terminate_child_impl` treats `ESRCH` as success on every
platform, treats `EPERM` as success exactly when the platform is macOS, and
returns an error for any other errno. -/
theorem C4_terminate_child_impl_errno (macos : Bool) (n : Nat) :
    terminate_child_impl macos .ok = .ok () ∧
    terminate_child_impl macos (.err .ESRCH) = .ok () ∧
    (terminate_child_impl macos (.err .EPERM) = .ok () ↔ macos = true) ∧
    terminate_child_impl macos (.err (.other n)) = .error (.other n) := by
  cases macos <;> simp [terminate_child_impl]

/-- C1 counterexample: with a configured timeout of 0 and elapsed time 1 the
timeout has fired, yet `poll` does not return `Some(Timeout)` — the `?` on
`self.terminate()` propagates the termination failure (errno 5 here)
instead, so the claim "poll returns Timeout whenever the timeout fired" is
false as stated. -/
theorem C1_counterexample :
    (poll false { timeout := some 0 }
      { elapsed := 1, interrupted := none, tryWait := .ok none,
        killpg := .err (.other 5), waitAfterTerm := .error 0 }) =
      { outcome := .error (.termFailed (.other 5)), terminated := true } ∧
    (poll false { timeout := some 0 }
      { elapsed := 1, interrupted := none, tryWait := .ok none,
        killpg := .err (.other 5), waitAfterTerm := .error 0 }).outcome ≠
      .ok (some ProcessStatus.Timeout) := by
  constructor <;> decide

/-- C1 (amended): the three checks of `poll` run in a fixed order with first
match winning.  (1) If a timeout is configured and the elapsed time strictly
exceeds it, the Terminator is invoked regardless of the interrupt flag and
of the exit state of the child, and — provided termination succeeds — `poll`
returns `Some(Timeout)`.  (2) If no timeout fired and the interrupt flag is
set, the Terminator is invoked and `poll` never returns an `Ok` value, so an
interrupt wins over a simultaneous natural exit.  (3) When no timeout is
configured, `poll` never returns `Some(Timeout)`. -/
theorem C1_poll_check_order (macos : Bool) :
    (∀ (cfg : ProcessCfg) (env : PollEnv) (t : Nat), cfg.timeout = some t →
      t < env.elapsed →
      (poll macos cfg env).terminated = true ∧
      ((terminate macos env).result = .ok () →
        (poll macos cfg env).outcome = .ok (some ProcessStatus.Timeout))) ∧
    (∀ (cfg : ProcessCfg) (env : PollEnv) (p : Nat),
      timeoutExceeded cfg.timeout env.elapsed = false →
      env.interrupted = some p →
      (poll macos cfg env).terminated = true ∧
      ∀ s, (poll macos cfg env).outcome ≠ .ok s) ∧
    (∀ (cfg : ProcessCfg) (env : PollEnv), cfg.timeout = none →
      (poll macos cfg env).outcome ≠ .ok (some ProcessStatus.Timeout)) := by
  refine ⟨?_, ?_, ?_⟩
  · intro cfg env t ht hel
    have hto := timeoutExceeded_true ht hel
    constructor
    · simp only [poll, hto, if_true]
      cases h : (terminate macos env).result <;> simp
    · intro hok
      simp [poll, hto, hok]
  · intro cfg env p hto hint
    constructor
    · simp only [poll, hto, Bool.false_eq_true, if_false, hint]
      cases h : (terminate macos env).result <;> simp
    · intro s
      simp only [poll, hto, Bool.false_eq_true, if_false, hint]
      cases h : (terminate macos env).result <;> simp
  · intro cfg env ht
    have hto : timeoutExceeded cfg.timeout env.elapsed = false :=
      timeoutExceeded_none ht
    simp only [poll, hto, Bool.false_eq_true, if_false]
    cases hi : env.interrupted with
    | some p =>
      cases h : (terminate macos env).result <;> simp
    | none =>
      cases hw : env.tryWait with
      | error e => simp
      | ok o =>
        cases o with
        | none => simp
        | some st =>
          cases hc : st.code with
          | some c =>
            by_cases h0 : c = 0 <;> simp [hc, h0]
          | none =>
            cases hs : st.signal <;> simp [hc, hs]

/-- C1 witness: concrete instances of all three conjuncts — a fired timeout
with successful termination yields `Timeout` even though the interrupt flag
is set and the child has exited; an interrupt with no timeout terminates and
yields no `Ok`; with no timeout configured the result is not `Timeout`. -/
theorem C1_witness :
    (poll false { timeout := some 5 }
      { elapsed := 6, interrupted := some 3, tryWait := .ok (some { code := some 0, signal := none }),
        killpg := .ok, waitAfterTerm := .ok { code := some 0, signal := none } }).outcome =
      .ok (some ProcessStatus.Timeout) ∧
    (poll false { timeout := none }
      { elapsed := 6, interrupted := some 3, tryWait := .ok (some { code := some 0, signal := none }),
        killpg := .ok, waitAfterTerm := .ok { code := some 0, signal := none } }).terminated = true ∧
    (poll false { timeout := none }
      { elapsed := 6, interrupted := none, tryWait := .ok (some { code := some 0, signal := none }),
        killpg := .ok, waitAfterTerm := .ok { code := some 0, signal := none } }).outcome ≠
      .ok (some ProcessStatus.Timeout) := by
  refine ⟨?_, ?_, ?_⟩
  · exact ((C1_poll_check_order false).1 _ _ 5 rfl (by decide)).2 (by decide)
  · exact ((C1_poll_check_order false).2.1 _ _ 3 (by decide) rfl).1
  · exact (C1_poll_check_order false).2.2 _ _ rfl

/-- C3 counterexample: when `killpg` fails with a non-tolerated errno
(errno 5, not macOS), `terminate` surfaces the error — and the blocking
wait-for-exit step is *not* performed: the `?` on `terminate_child_impl`
returns early, before `self.child.wait()`.  This refutes the claim that the
wait step is still performed when a `TerminationSignalError` is surfaced. -/
theorem C3_counterexample :
    (terminate false
      { elapsed := 0, interrupted := none, tryWait := .ok none,
        killpg := .err (.other 5), waitAfterTerm := .ok { code := some 0, signal := none } }) =
      { result := .error (.other 5), waited := false } := by
  decide

/-- C3 (amended): when sending the termination signal fails for a
non-tolerated reason, `terminate` surfaces that error immediately and skips
the blocking wait-for-exit step; when the signal send succeeds (or fails in
a tolerated way), the wait step is performed and its own outcome — success
or failure — is only logged: it never changes the value returned by `terminate`. -/
theorem C3_terminate_wait_behavior (macos : Bool) (env : PollEnv) :
    (∀ e, terminate_child_impl macos env.killpg = .error e →
      terminate macos env = { result := .error e, waited := false }) ∧
    (terminate_child_impl macos env.killpg = .ok () →
      terminate macos env = { result := .ok (), waited := true }) ∧
    (∀ w : Except Nat ExitStatus,
      terminate macos { env with waitAfterTerm := w } = terminate macos env) := by
  refine ⟨?_, ?_, ?_⟩
  · intro e he
    simp [terminate, he]
  · intro hok
    simp only [terminate, hok]
    cases env.waitAfterTerm <;> simp
  · intro w
    simp only [terminate]
    cases h : terminate_child_impl macos env.killpg with
    | error e => simp
    | ok u => cases w <;> cases env.waitAfterTerm <;> simp

/-- C3 witness: on a successful signal send the wait step runs and a failing
wait (`waitAfterTerm` an error) still yields `Ok`; and replacing the wait
outcome leaves the value of `terminate` unchanged. -/
theorem C3_witness :
    (terminate false
      { elapsed := 0, interrupted := none, tryWait := .ok none,
        killpg := .ok, waitAfterTerm := .error 7 }) =
      { result := .ok (), waited := true } ∧
    (terminate false
      { elapsed := 0, interrupted := none, tryWait := .ok none,
        killpg := .ok, waitAfterTerm := .ok { code := some 0, signal := none } }) =
      (terminate false
        { elapsed := 0, interrupted := none, tryWait := .ok none,
          killpg := .ok, waitAfterTerm := .error 7 }) := by
  constructor
  · exact (C3_terminate_wait_behavior false
      { elapsed := 0, interrupted := none, tryWait := .ok none,
        killpg := .ok, waitAfterTerm := .error 7 }).2.1 rfl
  · exact (C3_terminate_wait_behavior false
      { elapsed := 0, interrupted := none, tryWait := .ok none,
        killpg := .ok, waitAfterTerm := .error 7 }).2.2 (.ok { code := some 0, signal := none })

/-- C5 counterexample: with no timeout, the interrupt flag set with
payload 7, and `killpg` failing with a non-tolerated errno, `poll` returns
the termination error, not the cancellation payload — refuting the claim
that the returned error is always exactly the payload of the cancellation
query. -/
theorem C5_counterexample :
    (poll false { timeout := none }
      { elapsed := 0, interrupted := some 7, tryWait := .ok none,
        killpg := .err (.other 5), waitAfterTerm := .error 0 }).outcome =
      .error (.termFailed (.other 5)) ∧
    (poll false { timeout := none }
      { elapsed := 0, interrupted := some 7, tryWait := .ok none,
        killpg := .err (.other 5), waitAfterTerm := .error 0 }).outcome ≠
      .error (.interrupt 7) := by
  constructor <;> decide

/-- C5 (amended): when no timeout has fired and the cancellation query
reports an interrupt, `poll` invokes the Terminator and returns an error
rather than any `Ok` value; and provided the Terminator invocation succeeds,
the returned error is exactly the error payload carried by the cancellation
query. -/
theorem C5_interrupt_error_propagation (macos : Bool) (cfg : ProcessCfg)
    (env : PollEnv) (p : Nat)
    (hto : timeoutExceeded cfg.timeout env.elapsed = false)
    (hint : env.interrupted = some p) :
    (poll macos cfg env).terminated = true ∧
    (∀ s, (poll macos cfg env).outcome ≠ .ok s) ∧
    ((terminate macos env).result = .ok () →
      (poll macos cfg env).outcome = .error (.interrupt p)) := by
  refine ⟨?_, ?_, ?_⟩
  · simp only [poll, hto, Bool.false_eq_true, if_false, hint]
    cases h : (terminate macos env).result <;> simp
  · intro s
    simp only [poll, hto, Bool.false_eq_true, if_false, hint]
    cases h : (terminate macos env).result <;> simp
  · intro hok
    simp [poll, hto, hint, hok]

/-- C5 witness: an interrupt with payload 9 and a successful termination
terminates the child and propagates exactly the payload-9 error. -/
theorem C5_witness :
    (poll false { timeout := none }
      { elapsed := 2, interrupted := some 9, tryWait := .ok (some { code := some 0, signal := none }),
        killpg := .ok, waitAfterTerm := .error 0 }).terminated = true ∧
    (poll false { timeout := none }
      { elapsed := 2, interrupted := some 9, tryWait := .ok (some { code := some 0, signal := none }),
        killpg := .ok, waitAfterTerm := .error 0 }).outcome = .error (.interrupt 9) := by
  constructor
  · exact (C5_interrupt_error_propagation false { timeout := none }
      { elapsed := 2, interrupted := some 9, tryWait := .ok (some { code := some 0, signal := none }),
        killpg := .ok, waitAfterTerm := .error 0 } 9 (by decide) rfl).1
  · exact (C5_interrupt_error_propagation false { timeout := none }
      { elapsed := 2, interrupted := some 9, tryWait := .ok (some { code := some 0, signal := none }),
        killpg := .ok, waitAfterTerm := .error 0 } 9 (by decide) rfl).2.2 (by decide)

/-- C6: when the child exits without a numeric code but with terminating
signal `n` (and no timeout or interrupt fired), `poll` returns
`Some(Signalled n)` with `n` the actual signal number (signal numbers fit in
a byte, so the `as u8` truncation is the identity); and `Other` is returned
only when the exit status yields neither a numeric code nor a signal
number. -/
theorem C6_signalled_and_other_exhaustive :
    (∀ (macos : Bool) (cfg : ProcessCfg) (env : PollEnv) (n : Nat) (st : ExitStatus),
      n ≤ 255 →
      timeoutExceeded cfg.timeout env.elapsed = false →
      env.interrupted = none →
      env.tryWait = .ok (some st) →
      st.code = none → st.signal = some (n : Int) →
      (poll macos cfg env).outcome = .ok (some (ProcessStatus.Signalled n))) ∧
    (∀ (macos : Bool) (cfg : ProcessCfg) (env : PollEnv) (st : ExitStatus),
      env.tryWait = .ok (some st) →
      (poll macos cfg env).outcome = .ok (some ProcessStatus.Other) →
      st.code = none ∧ st.signal = none) := by
  constructor
  · intro macos cfg env n st hn hto hint hw hc hs
    have h8 : i32AsU8 (n : Int) = n := by
      simp only [i32AsU8]
      omega
    simp [poll, hto, hint, hw, hc, hs, h8]
  · intro macos cfg env st hw hother
    by_cases hto : timeoutExceeded cfg.timeout env.elapsed = true
    · exfalso
      revert hother
      simp only [poll, hto, if_true]
      cases h : (terminate macos env).result <;> simp
    · have hto' : timeoutExceeded cfg.timeout env.elapsed = false := by
        simpa using hto
      cases hi : env.interrupted with
      | some p =>
        exfalso
        revert hother
        simp only [poll, hto', Bool.false_eq_true, if_false, hi]
        cases h : (terminate macos env).result <;> simp
      | none =>
        revert hother
        simp only [poll, hto', Bool.false_eq_true, if_false, hi, hw]
        cases hc : st.code with
        | some c =>
          by_cases h0 : c = 0 <;> simp [h0]
        | none =>
          cases hs : st.signal with
          | some sg => simp
          | none => simp

/-- C6 witness: a child killed by signal 15 (no code) yields
`Signalled 15`; a child with neither code nor signal yields `Other`. -/
theorem C6_witness :
    (poll false { timeout := none }
      { elapsed := 0, interrupted := none, tryWait := .ok (some { code := none, signal := some 15 }),
        killpg := .ok, waitAfterTerm := .error 0 }).outcome =
      .ok (some (ProcessStatus.Signalled 15)) ∧
    ({ code := none, signal := none } : ExitStatus).code = none := by
  constructor
  · exact (C6_signalled_and_other_exhaustive).1 false { timeout := none }
      { elapsed := 0, interrupted := none, tryWait := .ok (some { code := none, signal := some 15 }),
        killpg := .ok, waitAfterTerm := .error 0 } 15 { code := none, signal := some 15 }
      (by decide) (by decide) rfl rfl rfl rfl
  · exact ((C6_signalled_and_other_exhaustive).2 false { timeout := none }
      { elapsed := 0, interrupted := none, tryWait := .ok (some { code := none, signal := none }),
        killpg := .ok, waitAfterTerm := .error 0 } { code := none, signal := none }
      rfl (by decide)).1

/-- C7: `get_command_output` on a successful spawn returns exactly the
decoded standard output when the exit status is successful and the bytes are
valid UTF-8; returns an error carrying the exit status and the argv when the
exit is unsuccessful; returns a decode error when the output is not valid
UTF-8; and on a spawn failure returns an error naming the argv. -/
theorem C7_get_command_output_cases (argv : List String) (out : CmdOutcome) (e : Nat) :
    (∀ cs : List Char, out.success = true → utf8Decode out.stdout = some cs →
      get_command_output argv (.ok out) = .ok (String.mk cs)) ∧
    (out.success = false →
      get_command_output argv (.ok out) = .error (.childFailed out.statusRepr argv)) ∧
    (out.success = true → utf8Decode out.stdout = none →
      get_command_output argv (.ok out) = .error .notUtf8) ∧
    get_command_output argv (.error e) = .error (.spawnFailed argv) := by
  refine ⟨?_, ?_, ?_, rfl⟩
  · intro cs hs hd
    simp [get_command_output, hs, hd]
  · intro hs
    simp [get_command_output, hs]
  · intro hs hd
    simp [get_command_output, hs, hd]

/-- C7 witness: a zero-exit command printing the bytes of `"hi"` returns
`"hi"`; a non-zero exit yields the error carrying its status rendering and
argv; invalid UTF-8 output (byte 255) yields the decode error; a failed
spawn yields the error naming the argv. -/
theorem C7_witness :
    get_command_output ["git", "describe"]
      (.ok { success := true, statusRepr := "exit status: 0", stdout := [104, 105] }) =
      .ok "hi" ∧
    get_command_output ["git"]
      (.ok { success := false, statusRepr := "exit status: 1", stdout := [] }) =
      .error (.childFailed "exit status: 1" ["git"]) ∧
    get_command_output ["git"]
      (.ok { success := true, statusRepr := "exit status: 0", stdout := [255] }) =
      .error .notUtf8 ∧
    get_command_output ["nonexistent"] (.error 2) = .error (.spawnFailed ["nonexistent"]) := by
  refine ⟨?_, ?_, ?_, ?_⟩
  · have h := (C7_get_command_output_cases ["git", "describe"]
      { success := true, statusRepr := "exit status: 0", stdout := [104, 105] } 0).1
      ['h', 'i'] rfl (by decide)
    simpa using h
  · exact (C7_get_command_output_cases ["git"]
      { success := false, statusRepr := "exit status: 1", stdout := [] } 0).2.1 rfl
  · exact (C7_get_command_output_cases ["git"]
      { success := true, statusRepr := "exit status: 0", stdout := [255] } 0).2.2.1 rfl (by decide)
  · exact (C7_get_command_output_cases ["nonexistent"]
      { success := true, statusRepr := "", stdout := [] } 2).2.2.2

/-- C8: quoting a string containing none of the special characters (space,
tab, newline, carriage return, backslash, single quote, double quote)
returns it unchanged; `"foo bar"` becomes `foo\ bar`; backslashes are each
escaped individually; and multiple argv elements are joined with single
spaces. -/
theorem C8_cheap_shell_quote_spec :
    (∀ s : String, (∀ c ∈ s.data,
        c ≠ ' ' ∧ c ≠ '\t' ∧ c ≠ '\n' ∧ c ≠ '\r' ∧ c ≠ '\\' ∧
          c ≠ Char.ofNat 39 ∧ c ≠ Char.ofNat 34) →
      cheap_shell_quote [s] = s) ∧
    cheap_shell_quote ["foo bar"] = "foo\\ bar" ∧
    cheap_shell_quote ["a\\b\\c"] = "a\\\\b\\\\c" ∧
    (∀ (x : String) (xs : List String), xs ≠ [] →
      cheap_shell_quote (x :: xs) = quoteOne x ++ " " ++ cheap_shell_quote xs) := by
  refine ⟨?_, by decide, by decide, ?_⟩
  · intro s h
    have key : ∀ l : List Char, (∀ c ∈ l,
        c ≠ ' ' ∧ c ≠ '\t' ∧ c ≠ '\n' ∧ c ≠ '\r' ∧ c ≠ '\\' ∧
          c ≠ Char.ofNat 39 ∧ c ≠ Char.ofNat 34) →
        l.flatMap quoteChar = l := by
      intro l
      induction l with
      | nil => intro _; rfl
      | cons c cs ih =>
        intro hl
        have hc := hl c (by simp)
        have hspec : isShellSpecial c = false := by
          simp only [isShellSpecial, Bool.or_eq_false_iff, decide_eq_false_iff_not]
          exact ⟨⟨⟨⟨⟨⟨hc.1, hc.2.1⟩, hc.2.2.1⟩, hc.2.2.2.1⟩, hc.2.2.2.2.1⟩,
            hc.2.2.2.2.2.1⟩, hc.2.2.2.2.2.2⟩
        have ht := ih (fun d hd => hl d (List.mem_cons_of_mem _ hd))
        simp [quoteChar, hspec, ht]
    have hq : quoteOne s = s := by
      unfold quoteOne
      rw [key s.data h]
    simp [cheap_shell_quote, joinSpace, hq]
  · intro x xs hxs
    cases xs with
    | nil => exact absurd rfl hxs
    | cons y ys => rfl

/-- C8 witness: `"foo"` has no special characters and is returned
unchanged; a two-element argv is the quoted head, a single space, and the
quoted tail. -/
theorem C8_witness :
    cheap_shell_quote ["foo"] = "foo" ∧
    cheap_shell_quote ["a", "b c"] = quoteOne "a" ++ " " ++ cheap_shell_quote ["b c"] := by
  constructor
  · exact C8_cheap_shell_quote_spec.1 "foo" (by decide)
  · exact C8_cheap_shell_quote_spec.2.2.2 "a" ["b c"] (by simp)

/-- C9: when the OS spawn call fails, `start` returns an error carrying the
attempted command line (the argv joined with spaces), produces no
`Process`, and performs exactly one spawn attempt whose outcome alone
determines the result (no retry). -/
theorem C9_start_spawn_failure (argv : List String) (timeout : Option Nat)
    (env : StartEnv) (e : Nat) (h : env.spawn 0 = .error e) :
    (start argv timeout env).result =
      .error (.spawnFailed ("failed to spawn " ++ joinSpace argv)) ∧
    (∀ cfg, (start argv timeout env).result ≠ .ok cfg) ∧
    (start argv timeout env).spawnCalls = 1 ∧
    (∀ env2 : StartEnv, env2.spawn 0 = env.spawn 0 →
      (start argv timeout env2).result = (start argv timeout env).result ∧
      (start argv timeout env2).spawnCalls = (start argv timeout env).spawnCalls) := by
  refine ⟨?_, ?_, ?_, ?_⟩
  · simp [start, h]
  · intro cfg
    simp [start, h]
  · simp [start, h]
  · intro env2 h2
    have hsame : start argv timeout env2 = start argv timeout env := by
      unfold start
      rw [h2]
    rw [hsame]
    exact ⟨rfl, rfl⟩

/-- C9 witness: spawning `a b` with a failing OS spawn yields the
`failed to spawn a b` error after one attempt. -/
theorem C9_witness :
    (start ["a", "b"] none ⟨fun _ => .error 3⟩).result =
      .error (.spawnFailed "failed to spawn a b") ∧
    (start ["a", "b"] none ⟨fun _ => .error 3⟩).spawnCalls = 1 := by
  have h := C9_start_spawn_failure ["a", "b"] none ⟨fun _ => .error 3⟩ 3 rfl
  refine ⟨?_, h.2.2.1⟩
  have h1 := h.1
  rw [(by decide : ("failed to spawn " ++ joinSpace ["a", "b"] : String) = "failed to spawn a b")] at h1
  exact h1

/-- C10: the payload of `Failure` is the OS-reported signed 32-bit code
reinterpreted as unsigned (value modulo `2^32`), so a negative code `c`
gives `Failure (c + 2^32)`; the payload of `Signalled` is the signal number
truncated to 8 bits (value modulo `2^8`). -/
theorem C10_numeric_casts (macos : Bool) (cfg : ProcessCfg) (env : PollEnv)
    (st : ExitStatus)
    (hto : timeoutExceeded cfg.timeout env.elapsed = false)
    (hint : env.interrupted = none)
    (hw : env.tryWait = .ok (some st)) :
    (∀ c : Int, st.code = some c → c ≠ 0 → -(2 ^ 31) ≤ c → c < 2 ^ 31 →
      (poll macos cfg env).outcome =
        .ok (some (ProcessStatus.Failure ((c % 2 ^ 32).toNat))) ∧
      (c < 0 →
        (poll macos cfg env).outcome =
          .ok (some (ProcessStatus.Failure ((c + 2 ^ 32).toNat))))) ∧
    (∀ n : Int, st.code = none → st.signal = some n →
      (poll macos cfg env).outcome =
        .ok (some (ProcessStatus.Signalled ((n % 2 ^ 8).toNat)))) := by
  constructor
  · intro c hc h0 hlo hhi
    have hpoll : (poll macos cfg env).outcome =
        .ok (some (ProcessStatus.Failure (i32AsU32 c))) := by
      simp [poll, hto, hint, hw, hc, h0]
    constructor
    · simpa [i32AsU32] using hpoll
    · intro hneg
      have heq : i32AsU32 c = (c + 2 ^ 32).toNat := by
        simp only [i32AsU32]
        omega
      rw [hpoll, heq]
  · intro n hc hs
    simp [poll, hto, hint, hw, hc, hs, i32AsU8]

/-- C10 witness: exit code `-1` yields `Failure 4294967295`
(`-1 + 2^32`), and signal number 300 is truncated to `Signalled 44`
(`300 mod 256`). -/
theorem C10_witness :
    (poll false { timeout := none }
      { elapsed := 0, interrupted := none,
        tryWait := .ok (some { code := some (-1), signal := none }),
        killpg := .ok, waitAfterTerm := .error 0 }).outcome =
      .ok (some (ProcessStatus.Failure 4294967295)) ∧
    (poll false { timeout := none }
      { elapsed := 0, interrupted := none,
        tryWait := .ok (some { code := none, signal := some 300 }),
        killpg := .ok, waitAfterTerm := .error 0 }).outcome =
      .ok (some (ProcessStatus.Signalled 44)) := by
  constructor
  · have h := ((C10_numeric_casts false { timeout := none }
      { elapsed := 0, interrupted := none,
        tryWait := .ok (some { code := some (-1), signal := none }),
        killpg := .ok, waitAfterTerm := .error 0 }
      { code := some (-1), signal := none } (by decide) rfl rfl).1
      (-1) rfl (by decide) (by decide) (by decide)).2 (by decide)
    have e1 : ((-1 : Int) + 2 ^ 32).toNat = 4294967295 := by decide
    rw [e1] at h
    exact h
  · have h := (C10_numeric_casts false { timeout := none }
      { elapsed := 0, interrupted := none,
        tryWait := .ok (some { code := none, signal := some 300 }),
        killpg := .ok, waitAfterTerm := .error 0 }
      { code := none, signal := some 300 } (by decide) rfl rfl).2 300 rfl rfl
    have e2 : ((300 : Int) % 2 ^ 8).toNat = 44 := by decide
    rw [e2] at h
    exact h

end ProcessModel
